import Mathlib

set_option maxRecDepth 40000

/-!
Shallow embedding of the order / promo-code / inventory workflow of the
plant-shop server (`src/server/routes-sqlite.ts`).

Modelling conventions:
* JS numbers (prices, amounts) are `ℚ`; integer quantities and ids are `ℤ`;
  SQLite datetime strings are `ℤ` with the usual order (ISO strings compare
  lexicographically, i.e. chronologically).
* Database rows are Lean structures; `db.queryOne` over a list is `List.find?`;
  `UPDATE ... WHERE` is a map that rewrites the matching rows.
* SQLite has no boolean storage class, so a row field read back into JS carries
  the *dynamic* JS value (an integer for an `INTEGER` column).  The
  `product_quantities_reduced` column is therefore modelled as a `JsVal`, and
  the source's `=== true` / truthiness tests are modelled by `JsVal.strictEqTrue`
  and `JsVal.truthy`.  (The row-reading convention is visible throughout the
  source: `order.need_insulation === 1`, `review.is_approved === 1`,
  `Boolean(product.is_available)` — integer columns come back as JS numbers.)
* A stored line item's `quantity` is `Option ℤ`: `none` models a missing or
  non-numeric JSON field (whose `parseInt` yields `NaN`).
-/

namespace Shop

/-- A dynamically-typed JS value as read back from a SQLite row field. -/
inductive JsVal where
  | num : ℚ → JsVal
  | bool : Bool → JsVal
  | null : JsVal
deriving DecidableEq, Repr

/-- JS strict equality against `true` (`x === true`): only the boolean `true`
passes; in particular the SQLite integer `1` does **not**. -/
def JsVal.strictEqTrue : JsVal → Bool
  | .bool b => b
  | _ => false

/-- JS truthiness of a value (`if (x)`). -/
def JsVal.truthy : JsVal → Bool
  | .num q => q != 0
  | .bool b => b
  | .null => false

/-- JS `Math.round`: round half away from zero upwards, `⌊x + 1/2⌋`. -/
def jsRound (q : ℚ) : ℤ := ⌊q + 1 / 2⌋

/-- JS truthiness of an optional string (`undefined`/`null`/`""` are falsy). -/
def optStrTruthy : Option String → Bool
  | some s => s != ""
  | none => false

/-- Row of the `products` table (the columns the workflow touches). -/
structure Product where
  id : ℤ
  name : String
  price : ℚ
  quantity : ℤ
deriving DecidableEq, Repr

/-- `discount_type` column of `promo_codes`. -/
inductive DiscountType where
  | percentage
  | fixed
deriving DecidableEq, Repr

/-- Row of the `promo_codes` table.  `expires_at` is the extra nullable column
consulted (only) by the apply-promo endpoint; nothing in the routes ever
writes it, so rows created through the admin endpoint carry `none`. -/
structure PromoCode where
  id : ℤ
  code : String
  discount_type : DiscountType
  discount_value : ℚ
  min_order_amount : Option ℚ
  start_date : ℤ
  end_date : ℤ
  expires_at : Option ℤ
  max_uses : Option ℤ
  current_uses : ℤ
  is_active : Bool
deriving DecidableEq, Repr

/-- One line item of the JSON-encoded `orders.items` column. -/
structure LineItem where
  id : ℤ
  name : String
  price : ℚ
  quantity : Option ℤ
deriving DecidableEq, Repr

/-- Row of the `orders` table (the columns the workflow touches). -/
structure OrderRow where
  id : ℤ
  user_id : ℤ
  items : List LineItem
  total_amount : ℚ
  delivery_amount : ℚ
  payment_method : String
  payment_status : String
  order_status : String
  payment_proof_url : Option String
  promo_code : Option String
  promo_code_discount : Option ℚ
  product_quantities_reduced : JsVal
deriving DecidableEq, Repr

/-- Row of the `promo_code_uses` table. -/
structure PromoUse where
  promo_code_id : ℤ
  user_id : ℤ
  order_id : ℤ
  discount_amount : ℚ
deriving DecidableEq, Repr

/-- The relational store. -/
structure Db where
  products : List Product
  promos : List PromoCode
  orders : List OrderRow
  promoUses : List PromoUse
deriving DecidableEq, Repr

/-- `SELECT * FROM products WHERE id = ?` (first match). -/
def findProduct (db : Db) (pid : ℤ) : Option Product :=
  db.products.find? (fun p => p.id == pid)

/-- `SELECT * FROM orders WHERE id = ?` (first match). -/
def findOrder (db : Db) (oid : ℤ) : Option OrderRow :=
  db.orders.find? (fun o => o.id == oid)

/-- `UPDATE ... SET ... WHERE p`: rewrite every row satisfying `p`. -/
def updateWhere {α : Type} (p : α → Bool) (f : α → α) (l : List α) : List α :=
  l.map (fun x => if p x then f x else x)

/-- One cart line of a `POST /api/orders` request body. -/
structure OrderItemReq where
  id : ℤ
  quantity : ℤ
deriving DecidableEq, Repr

/-- Body of a `POST /api/orders` request (the fields the workflow reads).
`deliveryAmount = none` models a missing / non-numeric field. -/
structure CreateOrderReq where
  userId : ℤ
  items : List OrderItemReq
  deliveryAmount : Option ℚ
  paymentMethod : String
  promoCode : Option String
  paymentProof : Option String
deriving DecidableEq, Repr

/-- The per-line validation loop of `POST /api/orders` (routes-sqlite.ts
1644-1665): fetch each product, fail on a missing product or on
`product.quantity < item.quantity`, and accumulate `price * quantity`. -/
def computeItemsTotal (db : Db) : List OrderItemReq → ℚ → Except String ℚ
  | [], acc => .ok acc
  | it :: rest, acc =>
    match findProduct db it.id with
    | none => .error ("Товар с ID " ++ toString it.id ++ " не найден")
    | some p =>
      if p.quantity < it.quantity then
        .error ("Недостаточное количество товара \"" ++ p.name ++
          "\" в наличии (доступно: " ++ toString p.quantity ++ ")")
      else
        computeItemsTotal db rest (acc + p.price * (it.quantity : ℚ))

/-- The sum `Σ price(item.id) * quantity` over the cart lines. -/
def itemsTotalSpec (db : Db) (items : List OrderItemReq) : ℚ :=
  (items.map (fun it =>
    (match findProduct db it.id with
     | some p => p.price
     | none => 0) * (it.quantity : ℚ))).sum

/-- The `WHERE` clause of the promo lookup in `POST /api/orders`
(routes-sqlite.ts 1670-1677): code match, `is_active = 1`,
`start_date <= now AND end_date >= now`,
`max_uses IS NULL OR current_uses < max_uses`. -/
def promoRowMatchesCreate (code : String) (now : ℤ) (pc : PromoCode) : Bool :=
  pc.code == code && pc.is_active &&
    (decide (pc.start_date ≤ now) && decide (now ≤ pc.end_date)) &&
    (match pc.max_uses with
     | none => true
     | some m => decide (pc.current_uses < m))

/-- The promo lookup of `POST /api/orders`. -/
def lookupPromoCreate (db : Db) (code : String) (now : ℤ) : Option PromoCode :=
  db.promos.find? (promoRowMatchesCreate code now)

/-- Lines 1688-1692: `Math.round(itemsTotal * (value / 100))` for a percentage
code, the raw value for a fixed code. -/
def rawPromoDiscount (pc : PromoCode) (itemsTotal : ℚ) : ℚ :=
  match pc.discount_type with
  | .percentage => (jsRound (itemsTotal * (pc.discount_value / 100)) : ℚ)
  | .fixed => pc.discount_value

/-- Lines 1687-1695 / 3745-3757 (identical in both promo paths): the raw
discount clamped by `Math.min` to the item subtotal. -/
def promoDiscount (pc : PromoCode) (itemsTotal : ℚ) : ℚ :=
  min (rawPromoDiscount pc itemsTotal) itemsTotal

/-- Line 1681: `promoCode.min_order_amount && itemsTotal < min_order_amount`
(a `0` minimum is falsy and skips the check). -/
def minOrderFails (pc : PromoCode) (itemsTotal : ℚ) : Bool :=
  match pc.min_order_amount with
  | none => false
  | some m => m != 0 && decide (itemsTotal < m)

/-- The validation phase of `POST /api/orders` (routes-sqlite.ts 1634-1702):
everything up to and including the promo check runs before
`BEGIN TRANSACTION`, performing reads only.  Returns
`(itemsTotal, deliveryAmount, promo lookup result with its discount)`. -/
def validateOrder (db : Db) (req : CreateOrderReq) (now : ℤ) :
    Except String (ℚ × ℚ × Option (PromoCode × ℚ)) :=
  if req.items.length == 0 then
    .error "Корзина пуста или имеет неверный формат"
  else
    match req.deliveryAmount with
    | none => .error "Не указана стоимость доставки"
    | some dv =>
      match computeItemsTotal db req.items 0 with
      | .error m => .error m
      | .ok itemsTotal =>
        if optStrTruthy req.promoCode then
          match lookupPromoCreate db ((req.promoCode.getD "").toUpper) now with
          | some pc =>
            if minOrderFails pc itemsTotal then
              .error ("Минимальная сумма заказа для применения промокода: " ++
                toString (pc.min_order_amount.getD 0) ++ " ₽")
            else
              .ok (itemsTotal, dv, some (pc, promoDiscount pc itemsTotal))
          | none => .error "Недействительный промокод"
        else
          .ok (itemsTotal, dv, none)

/-- The `orderToSave` object of lines 1704-1737, including the frozen line-item
snapshot (name/price re-queried from `products`, "Unknown Product" / 0
fallbacks) and the `payment_method === "balance"` status policy.  The
`product_quantities_reduced` column starts at its schema default `0`. -/
def buildOrderRow (db : Db) (req : CreateOrderReq) (newId : ℤ)
    (itemsTotal dv : ℚ) (promoInfo : Option (PromoCode × ℚ)) : OrderRow :=
  { id := newId
    user_id := req.userId
    items := req.items.map (fun it =>
      { id := it.id
        name := match findProduct db it.id with
                | some p => p.name
                | none => "Unknown Product"
        price := match findProduct db it.id with
                 | some p => p.price
                 | none => 0
        quantity := some it.quantity })
    total_amount := itemsTotal - (match promoInfo with
                                  | some (_, d) => d
                                  | none => 0) + dv
    delivery_amount := dv
    payment_method := req.paymentMethod
    payment_status := if req.paymentMethod == "balance" then "completed" else "pending"
    order_status := if req.paymentMethod == "balance" then "processing" else "pending"
    payment_proof_url := req.paymentProof
    promo_code := if optStrTruthy req.promoCode then req.promoCode else none
    promo_code_discount := promoInfo.map (fun x => x.2)
    product_quantities_reduced := .num 0 }

/-- The creation-path inventory decrement (lines 1799-1807): one sequential
`UPDATE products SET quantity = quantity - ?` per cart line, with **no**
floor clamp. -/
def decrementProductsForItems (ps : List Product) (items : List OrderItemReq) :
    List Product :=
  items.foldl (fun acc it =>
    updateWhere (fun p => p.id == it.id)
      (fun p => { p with quantity := p.quantity - it.quantity }) acc) ps

/-- The transaction body of `POST /api/orders` (lines 1740-1819): insert the
order row; on a promo, bump `current_uses` (keyed by the upper-cased code)
and insert the `promo_code_uses` row; if the method is `"balance"` or a
payment proof was attached, decrement inventory and set the
`product_quantities_reduced` flag to the SQLite integer `1`. -/
def commitOrder (db : Db) (req : CreateOrderReq) (newId : ℤ) (row : OrderRow)
    (promoInfo : Option (PromoCode × ℚ)) : OrderRow × Db :=
  let db1 : Db := { db with orders := db.orders ++ [row] }
  let db2 : Db :=
    match promoInfo with
    | some (pc, d) =>
      { db1 with
        promos := updateWhere (fun c => c.code == (req.promoCode.getD "").toUpper)
          (fun c => { c with current_uses := c.current_uses + 1 }) db1.promos
        promoUses := db1.promoUses ++
          [{ promo_code_id := pc.id, user_id := req.userId,
             order_id := newId, discount_amount := d }] }
    | none => db1
  if req.paymentMethod == "balance" || optStrTruthy req.paymentProof then
    let db3 : Db := { db2 with products := decrementProductsForItems db2.products req.items }
    let db4 : Db := { db3 with
      orders := updateWhere (fun o => o.id == newId)
        (fun o => { o with product_quantities_reduced := JsVal.num 1 }) db3.orders }
    ((findOrder db4 newId).getD row, db4)
  else
    (row, db2)

/-- Outcome of `POST /api/orders`; an error response carries the store so that
"fails without side effects" is a statement, not a convention. -/
inductive CreateResult where
  | ok : OrderRow → Db → CreateResult
  | err : String → Db → CreateResult
deriving DecidableEq, Repr

/-- `POST /api/orders` (routes-sqlite.ts 1622-1841): every early `return`
happens before `BEGIN TRANSACTION`, so an error leaves the store as it was. -/
def createOrder (db : Db) (req : CreateOrderReq) (now : ℤ) (newId : ℤ) :
    CreateResult :=
  match validateOrder db req now with
  | .error m => .err m db
  | .ok (itemsTotal, dv, promoInfo) =>
    let row := buildOrderRow db req newId itemsTotal dv promoInfo
    let od := commitOrder db req newId row promoInfo
    .ok od.1 od.2

def CreateResult.orderOf : CreateResult → Option OrderRow
  | .ok o _ => some o
  | .err _ _ => none

def CreateResult.dbOf : CreateResult → Db
  | .ok _ d => d
  | .err _ d => d

def CreateResult.isOk : CreateResult → Bool
  | .ok _ _ => true
  | .err _ _ => false

/-- One iteration of the decrement loop of `updateProductQuantities`
(routes-sqlite.ts 2381-2452): skip a falsy id (`item.id ? ... : null`), skip a
missing/non-numeric or non-positive quantity (`isNaN(q) || q <= 0`), skip a
missing product, and otherwise `SET quantity = Math.max(0, current - q)`. -/
def applyItemReduction (db : Db) (it : LineItem) : Db :=
  if it.id == 0 then db
  else
    match it.quantity with
    | none => db
    | some q =>
      if q ≤ 0 then db
      else
        match findProduct db it.id with
        | none => db
        | some p =>
          { db with
            products := updateWhere (fun r => r.id == it.id)
              (fun r => { r with quantity := max 0 (p.quantity - q) }) db.products }

/-- The transaction of `updateProductQuantities` (lines 2374-2491): decrement
each line item, then mark the order with `product_quantities_reduced = 1`
(the SQLite integer) and commit, reporting success. -/
def runReduction (db : Db) (orderId : ℤ) (items : List LineItem) : Bool × Db :=
  let db1 := items.foldl applyItemReduction db
  let db2 : Db := { db1 with
    orders := updateWhere (fun o => o.id == orderId)
      (fun o => { o with product_quantities_reduced := JsVal.num 1 }) db1.orders }
  (true, db2)

/-- `updateProductQuantities` (routes-sqlite.ts 2321-2491).  The idempotency
guard (lines 2353-2366) re-reads the order and tests
`orderRecord.product_quantities_reduced === true` — a JS *strict* equality,
modelled by `JsVal.strictEqTrue`. -/
def updateProductQuantities (db : Db) (orderId : ℤ) (items : List LineItem) :
    Bool × Db :=
  if orderId == 0 then (false, db)
  else if items.length == 0 then (false, db)
  else
    match findOrder db orderId with
    | some o =>
      if o.product_quantities_reduced.strictEqTrue then (true, db)
      else runReduction db orderId items
    | none => runReduction db orderId items

/-- Outcome of the admin order-status / delete routes. -/
inductive StatusResult where
  | notFound : StatusResult
  | ok : Db → StatusResult
deriving DecidableEq, Repr

def StatusResult.dbOf : StatusResult → Option Db
  | .ok d => some d
  | .notFound => none

/-- `PUT /api/orders/:id/status` (routes-sqlite.ts 2494-2609): write the new
status, then — edge-triggered on entering `paid`/`processing` from a state
that is neither — run `updateProductQuantities` on the order's items.
(`PUT /api/orders/:id`, lines 1987-2128, implements the same trigger.) -/
def setOrderStatus (db : Db) (orderId : ℤ) (newStatus : String) : StatusResult :=
  match findOrder db orderId with
  | none => .notFound
  | some o =>
    let prev := if o.order_status == "" then "pending" else o.order_status
    let db1 : Db := { db with
      orders := updateWhere (fun r => r.id == orderId)
        (fun r => { r with order_status := newStatus }) db.orders }
    if (newStatus == "paid" || newStatus == "processing") &&
       (prev != "paid" && prev != "processing") then
      if o.items.length == 0 then .ok db1
      else .ok (updateProductQuantities db1 orderId o.items).2
    else .ok db1

/-- The restore loop of `DELETE /api/orders/:id` (lines 2166-2174): for each
parsed item with truthy `id` and truthy `quantity`,
`UPDATE products SET quantity = quantity + ?`. -/
def restoreItem (db : Db) (it : LineItem) : Db :=
  if it.id != 0 && (match it.quantity with
                    | some q => q != 0
                    | none => false) then
    { db with
      products := updateWhere (fun p => p.id == it.id)
        (fun p => { p with quantity := p.quantity + it.quantity.getD 0 }) db.products }
  else db

/-- `DELETE /api/orders/:id` (routes-sqlite.ts 2131-2202), one transaction:
if the order carries a (truthy) promo code, delete its `promo_code_uses` rows
(keyed by order id) and decrement `current_uses` on the promo whose `code`
equals the *stored* (not upper-cased) `order.promo_code` — SQLite string
equality is case-sensitive; if `product_quantities_reduced` is truthy,
restore the quantities; finally delete the order row. -/
def deleteOrder (db : Db) (orderId : ℤ) : StatusResult :=
  match findOrder db orderId with
  | none => .notFound
  | some o =>
    let db1 : Db :=
      if optStrTruthy o.promo_code then
        { db with
          promoUses := db.promoUses.filter (fun u => u.order_id != orderId)
          promos := updateWhere (fun c => c.code == o.promo_code.getD "")
            (fun c => { c with current_uses := c.current_uses - 1 }) db.promos }
      else db
    let db2 : Db :=
      if o.product_quantities_reduced.truthy then o.items.foldl restoreItem db1
      else db1
    .ok { db2 with orders := db2.orders.filter (fun r => r.id != orderId) }

/-- The `WHERE` clause of the promo lookup in
`POST /api/orders/:orderId/apply-promo` (routes-sqlite.ts 3713-3716):
`code = ? AND (expires_at IS NULL OR expires_at > now) AND is_active = 1` —
note: no `start_date`/`end_date` window, and the supplied code is **not**
upper-cased. -/
def promoRowMatchesApply (code : String) (now : ℤ) (pc : PromoCode) : Bool :=
  pc.code == code &&
    (match pc.expires_at with
     | none => true
     | some t => decide (now < t)) &&
    pc.is_active

/-- Outcome of `POST /api/orders/:orderId/apply-promo`. -/
inductive ApplyResult where
  | notFound : ApplyResult
  | err : String → ApplyResult
  | ok : OrderRow → Db → ApplyResult
deriving DecidableEq, Repr

def ApplyResult.isOk : ApplyResult → Bool
  | .ok _ _ => true
  | _ => false

def ApplyResult.orderOf : ApplyResult → Option OrderRow
  | .ok o _ => some o
  | _ => none

def ApplyResult.dbOf : ApplyResult → Option Db
  | .ok _ d => some d
  | _ => none

/-- `POST /api/orders/:orderId/apply-promo` (routes-sqlite.ts 3692-3811):
look the order and the promo up, check minimum order amount (against the full
`total_amount`!), the use cap (truthy `max_uses` only) and per-user reuse,
compute the discount from `total_amount - delivery_amount`, then in one
transaction overwrite the order's promo fields, subtract the discount from
`total_amount`, bump `current_uses` and insert the usage row.  There is **no**
check that the order already carries a promo code. -/
def applyPromo (db : Db) (orderId : ℤ) (code : String) (userId : ℤ) (now : ℤ) :
    ApplyResult :=
  match findOrder db orderId with
  | none => .notFound
  | some o =>
    match db.promos.find? (promoRowMatchesApply code now) with
    | none => .err "Недействительный промокод"
    | some pc =>
      if (match pc.min_order_amount with
          | none => false
          | some m => m != 0 && decide (o.total_amount < m)) then
        .err ("Минимальная сумма заказа для этого промокода: " ++
          toString (pc.min_order_amount.getD 0) ++ " ₽")
      else if (match pc.max_uses with
               | none => false
               | some m => m != 0 && decide (m ≤ pc.current_uses)) then
        .err "Достигнут лимит использований промокода"
      else if (db.promoUses.find?
          (fun u => u.promo_code_id == pc.id && u.user_id == userId)).isSome then
        .err "Вы уже использовали этот промокод"
      else
        let discountAmount := promoDiscount pc (o.total_amount - o.delivery_amount)
        let db1 : Db := { db with
          orders := updateWhere (fun r => r.id == orderId)
            (fun r => { r with
              promo_code := some pc.code
              promo_code_discount := some discountAmount
              total_amount := r.total_amount - discountAmount }) db.orders
          promos := updateWhere (fun c => c.id == pc.id)
            (fun c => { c with current_uses := c.current_uses + 1 }) db.promos
          promoUses := db.promoUses ++
            [{ promo_code_id := pc.id, user_id := userId,
               order_id := orderId, discount_amount := discountAmount }] }
        match findOrder db1 orderId with
        | some o2 => .ok o2 db1
        | none => .err "Заказ не найден после обновления"

/-! ### Concrete stores and requests used by the scenario theorems -/

/-- A one-product catalogue: id 1, price 500, stock 10. -/
def dbC7 : Db :=
  { products := [{ id := 1, name := "Фикус", price := 500, quantity := 10 }]
    promos := [], orders := [], promoUses := [] }

/-- Cart `[{id 1, qty 2}]`, delivery 300, card payment, no promo. -/
def reqC7card : CreateOrderReq :=
  { userId := 7, items := [{ id := 1, quantity := 2 }], deliveryAmount := some 300
    paymentMethod := "card", promoCode := none, paymentProof := none }

/-- The same order paid from the balance. -/
def reqC7balance : CreateOrderReq := { reqC7card with paymentMethod := "balance" }

/-- An order whose inventory was already decremented
(`product_quantities_reduced` holds the SQLite integer `1`). -/
def ordC2 : OrderRow :=
  { id := 1, user_id := 7
    items := [{ id := 1, name := "Фикус", price := 500, quantity := some 2 }]
    total_amount := 1300, delivery_amount := 300, payment_method := "card"
    payment_status := "pending", order_status := "shipped", payment_proof_url := none
    promo_code := none, promo_code_discount := none
    product_quantities_reduced := .num 1 }

def dbC2 : Db :=
  { products := [{ id := 1, name := "Фикус", price := 500, quantity := 3 }]
    promos := [], orders := [ordC2], promoUses := [] }

/-- An active percentage promo whose `[start_date, end_date]` window is already
over (`end_date = 10`), with no `expires_at` and no use cap. -/
def promoC5 : PromoCode :=
  { id := 1, code := "OLD10", discount_type := .percentage, discount_value := 10
    min_order_amount := none, start_date := 0, end_date := 10, expires_at := none
    max_uses := none, current_uses := 0, is_active := true }

def ordC5 : OrderRow :=
  { id := 1, user_id := 7, items := [], total_amount := 1200, delivery_amount := 200
    payment_method := "card", payment_status := "pending", order_status := "pending"
    payment_proof_url := none, promo_code := none, promo_code_discount := none
    product_quantities_reduced := .num 0 }

def dbC5 : Db :=
  { products := [{ id := 1, name := "Роза", price := 100, quantity := 5 }]
    promos := [promoC5], orders := [ordC5], promoUses := [] }

def reqC5 : CreateOrderReq :=
  { userId := 7, items := [{ id := 1, quantity := 1 }], deliveryAmount := some 10
    paymentMethod := "card", promoCode := some "OLD10", paymentProof := none }

/-- Promo `SALE10` with one recorded use. -/
def promoC6 : PromoCode :=
  { id := 1, code := "SALE10", discount_type := .fixed, discount_value := 100
    min_order_amount := none, start_date := 0, end_date := 100, expires_at := none
    max_uses := none, current_uses := 1, is_active := true }

/-- An order created with the promo code entered in lower case (`"sale10"`):
`POST /api/orders` stores `orderData.promoCode` verbatim (line 1733) while the
`promo_codes.code` column holds the upper-cased `"SALE10"`. -/
def ordC6 : OrderRow :=
  { id := 1, user_id := 7
    items := [{ id := 1, name := "Пион", price := 500, quantity := some 2 }]
    total_amount := 1200, delivery_amount := 300, payment_method := "balance"
    payment_status := "completed", order_status := "processing"
    payment_proof_url := none, promo_code := some "sale10"
    promo_code_discount := some 100, product_quantities_reduced := .num 1 }

def dbC6 : Db :=
  { products := [{ id := 1, name := "Пион", price := 500, quantity := 3 }]
    promos := [promoC6], orders := [ordC6]
    promoUses := [{ promo_code_id := 1, user_id := 7, order_id := 1, discount_amount := 100 }] }

/-- Stock 5, and a cart listing the same product twice with quantity 3 each:
each line passes the per-line check `5 < 3 = false` against the unmodified
stock, yet the two sequential decrements drive the stock to `-1`. -/
def dbC9 : Db :=
  { products := [{ id := 1, name := "Кактус", price := 100, quantity := 5 }]
    promos := [], orders := [], promoUses := [] }

def reqC9 : CreateOrderReq :=
  { userId := 7, items := [{ id := 1, quantity := 3 }, { id := 1, quantity := 3 }]
    deliveryAmount := some 0, paymentMethod := "balance"
    promoCode := none, paymentProof := none }

/-- 10%-off promo valid at time 5, used for the worked example of C4. -/
def promoC4 : PromoCode :=
  { id := 2, code := "TEN", discount_type := .percentage, discount_value := 10
    min_order_amount := none, start_date := 0, end_date := 100, expires_at := none
    max_uses := none, current_uses := 0, is_active := true }

def dbC4 : Db :=
  { products := [{ id := 1, name := "Фикус", price := 500, quantity := 10 }]
    promos := [promoC4], orders := [], promoUses := [] }

/-- Items totalling 1000 (2 × 500), delivery 200, 10% promo. -/
def reqC4 : CreateOrderReq :=
  { userId := 7, items := [{ id := 1, quantity := 2 }], deliveryAmount := some 200
    paymentMethod := "card", promoCode := some "TEN", paymentProof := none }

/-- Valid fixed-50 promo that user 7 has already used once (on order 1). -/
def promoC8 : PromoCode :=
  { id := 3, code := "WELCOME", discount_type := .fixed, discount_value := 50
    min_order_amount := none, start_date := 0, end_date := 100, expires_at := none
    max_uses := none, current_uses := 1, is_active := true }

def ordC8 : OrderRow :=
  { id := 2, user_id := 7, items := [], total_amount := 600, delivery_amount := 100
    payment_method := "card", payment_status := "pending", order_status := "pending"
    payment_proof_url := none, promo_code := none, promo_code_discount := none
    product_quantities_reduced := .num 0 }

def dbC8 : Db :=
  { products := [{ id := 1, name := "Фикус", price := 100, quantity := 5 }]
    promos := [promoC8], orders := [ordC8]
    promoUses := [{ promo_code_id := 3, user_id := 7, order_id := 1, discount_amount := 50 }] }

def reqC8 : CreateOrderReq :=
  { userId := 7, items := [{ id := 1, quantity := 1 }], deliveryAmount := some 100
    paymentMethod := "card", promoCode := some "WELCOME", paymentProof := none }

/-- An order that already carries promo `FIRST` with discount 100:
`1100 = 1000 - 100 + 200`. -/
def ordC10 : OrderRow :=
  { id := 1, user_id := 9, items := [{ id := 1, name := "Фикус", price := 500, quantity := some 2 }]
    total_amount := 1100, delivery_amount := 200, payment_method := "card"
    payment_status := "pending", order_status := "pending", payment_proof_url := none
    promo_code := some "FIRST", promo_code_discount := some 100
    product_quantities_reduced := .num 0 }

def promoC10 : PromoCode :=
  { id := 4, code := "EXTRA", discount_type := .percentage, discount_value := 10
    min_order_amount := none, start_date := 0, end_date := 100, expires_at := none
    max_uses := none, current_uses := 0, is_active := true }

def dbC10 : Db :=
  { products := [{ id := 1, name := "Фикус", price := 500, quantity := 10 }]
    promos := [promoC10], orders := [ordC10], promoUses := [] }

/-- Empty-cart request, used to witness the no-side-effect theorem. -/
def reqC3empty : CreateOrderReq :=
  { userId := 7, items := [], deliveryAmount := some 300
    paymentMethod := "card", promoCode := none, paymentProof := none }

/-- Missing delivery amount. -/
def reqC3nodel : CreateOrderReq :=
  { userId := 7, items := [{ id := 1, quantity := 2 }], deliveryAmount := none
    paymentMethod := "card", promoCode := none, paymentProof := none }

/-- References product 2, which `dbC7` does not contain. -/
def reqC3badid : CreateOrderReq :=
  { userId := 7, items := [{ id := 2, quantity := 1 }], deliveryAmount := some 300
    paymentMethod := "card", promoCode := none, paymentProof := none }

/-- Requests 11 units of product 1; `dbC7` stocks 10. -/
def reqC3over : CreateOrderReq :=
  { userId := 7, items := [{ id := 1, quantity := 11 }], deliveryAmount := some 300
    paymentMethod := "card", promoCode := none, paymentProof := none }

/-- Supplies a promo code that `dbC7` does not contain. -/
def reqC3badpromo : CreateOrderReq :=
  { userId := 7, items := [{ id := 1, quantity := 2 }], deliveryAmount := some 300
    paymentMethod := "card", promoCode := some "NOPE", paymentProof := none }

/-- The row `createOrder dbC7 reqC7card 0 1` persists. -/
def rowC1 : OrderRow :=
  { id := 1, user_id := 7
    items := [{ id := 1, name := "Фикус", price := 500, quantity := some 2 }]
    total_amount := 1300, delivery_amount := 300, payment_method := "card"
    payment_status := "pending", order_status := "pending", payment_proof_url := none
    promo_code := none, promo_code_discount := none
    product_quantities_reduced := .num 0 }

/-- The store after `createOrder dbC7 reqC7card 0 1`. -/
def dbC1after : Db :=
  { products := [{ id := 1, name := "Фикус", price := 500, quantity := 10 }]
    promos := [], orders := [rowC1], promoUses := [] }

/-- The row `createOrder dbC4 reqC4 5 1` persists: `1100 = 1000 - 100 + 200`. -/
def rowC4 : OrderRow :=
  { id := 1, user_id := 7
    items := [{ id := 1, name := "Фикус", price := 500, quantity := some 2 }]
    total_amount := 1100, delivery_amount := 200, payment_method := "card"
    payment_status := "pending", order_status := "pending", payment_proof_url := none
    promo_code := some "TEN", promo_code_discount := some 100
    product_quantities_reduced := .num 0 }

/-- The store after `createOrder dbC4 reqC4 5 1`. -/
def dbC4after : Db :=
  { products := [{ id := 1, name := "Фикус", price := 500, quantity := 10 }]
    promos := [{ promoC4 with current_uses := 1 }]
    orders := [rowC4]
    promoUses := [{ promo_code_id := 2, user_id := 7, order_id := 1, discount_amount := 100 }] }

/-- An active promo whose use cap is reached (`current_uses = max_uses = 5`). -/
def promoC5cap : PromoCode :=
  { id := 6, code := "FULL", discount_type := .fixed, discount_value := 100
    min_order_amount := none, start_date := 0, end_date := 100, expires_at := none
    max_uses := some 5, current_uses := 5, is_active := true }

def dbC5cap : Db :=
  { products := [], promos := [promoC5cap], orders := [ordC5], promoUses := [] }

/-- The order after `applyPromo dbC10 1 "EXTRA" 9 5`: the second promo
overwrote the first, `1010 = 1100 - 90`. -/
def rowC10out : OrderRow :=
  { ordC10 with promo_code := some "EXTRA", promo_code_discount := some 90
                total_amount := 1010 }

def dbC10out : Db :=
  { products := [{ id := 1, name := "Фикус", price := 500, quantity := 10 }]
    promos := [{ promoC10 with current_uses := 1 }]
    orders := [rowC10out]
    promoUses := [{ promo_code_id := 4, user_id := 9, order_id := 1, discount_amount := 90 }] }

/-!
## Theorems

General lemmas about the embedded operations, shared by the claim theorems.
-/

/-- A row-rewriting update leaves a list alone when no row matches. -/
theorem updateWhere_eq_self {α : Type} (p : α → Bool) (f : α → α) (l : List α)
    (h : ∀ x ∈ l, p x = false) : updateWhere p f l = l := by
  induction l with
  | nil => rfl
  | cons a t ih =>
    have ha := h a (List.mem_cons_self a t)
    have ht := ih (fun x hx => h x (List.mem_cons_of_mem a hx))
    simp only [updateWhere, List.map_cons]
    rw [if_neg (by simp [ha])]
    rw [show List.map (fun x => if p x = true then f x else x) t = updateWhere p f t from rfl, ht]

/-- `find?` skips a prefix containing no match. -/
theorem find?_append_of_none {α : Type} (p : α → Bool) (l1 l2 : List α)
    (h : l1.find? p = none) : (l1 ++ l2).find? p = l2.find? p := by
  induction l1 with
  | nil => rfl
  | cons a t ih =>
    cases hpa : p a with
    | true => simp [List.find?_cons_of_pos, hpa] at h
    | false =>
      rw [List.find?_cons_of_neg _ (by simp [hpa])] at h
      rw [List.cons_append, List.find?_cons_of_neg _ (by simp [hpa])]
      exact ih h

/-- If the rewriting function preserves the selection predicate, `find?` after
the update returns the updated first match. -/
theorem find?_updateWhere {α : Type} (p : α → Bool) (f : α → α) (l : List α)
    (hpf : ∀ x, p (f x) = p x) :
    (updateWhere p f l).find? p = (l.find? p).map f := by
  induction l with
  | nil => rfl
  | cons a t ih =>
    simp only [updateWhere, List.map_cons]
    cases hpa : p a with
    | true =>
      rw [show (if true = true then f a else a) = f a from rfl]
      rw [List.find?_cons_of_pos _ (by rw [hpf]; exact hpa)]
      rw [List.find?_cons_of_pos _ hpa]
      rfl
    | false =>
      rw [show (if false = true then f a else a) = a from rfl]
      rw [List.find?_cons_of_neg _ (by simp [hpa])]
      rw [List.find?_cons_of_neg _ (by simp [hpa])]
      exact ih

/-- After inserting a fresh order row and marking it, looking the id up returns
exactly the marked row. -/
theorem findOrder_after_mark (l : List OrderRow) (row : OrderRow) (newId : ℤ)
    (hrow : row.id = newId) (hfresh : ∀ r ∈ l, r.id ≠ newId) :
    (updateWhere (fun o => o.id == newId)
        (fun o => { o with product_quantities_reduced := JsVal.num 1 })
        (l ++ [row])).find? (fun o => o.id == newId) =
      some { row with product_quantities_reduced := JsVal.num 1 } := by
  have hall : ∀ r ∈ l, (r.id == newId) = false := by
    intro r hr
    simpa using hfresh r hr
  have hl : updateWhere (fun o => o.id == newId)
      (fun o => { o with product_quantities_reduced := JsVal.num 1 }) l = l :=
    updateWhere_eq_self _ _ _ hall
  rw [updateWhere, List.map_append, ← updateWhere, ← updateWhere, hl]
  have hnone : l.find? (fun o => o.id == newId) = none := by
    rw [List.find?_eq_none]
    intro r hr
    simp [hall r hr]
  rw [find?_append_of_none _ _ _ hnone]
  simp [updateWhere, hrow]

/-- The order returned by the creation transaction: the saved row, with the
`product_quantities_reduced` flag set to the integer `1` on the immediate
decrement path. -/
theorem commitOrder_fst (db : Db) (req : CreateOrderReq) (newId : ℤ)
    (row : OrderRow) (pi : Option (PromoCode × ℚ))
    (hrow : row.id = newId) (hfresh : ∀ r ∈ db.orders, r.id ≠ newId) :
    (commitOrder db req newId row pi).1 =
      (if req.paymentMethod == "balance" || optStrTruthy req.paymentProof then
        { row with product_quantities_reduced := JsVal.num 1 }
       else row) := by
  rcases pi with _ | ⟨pc, d⟩ <;>
    · unfold commitOrder
      dsimp only
      split
      · rw [findOrder]
        dsimp only
        rw [findOrder_after_mark db.orders row newId hrow hfresh]
        simp_all
      · simp_all

/-- The products component of the creation transaction: decremented on the
immediate path, untouched otherwise. -/
theorem commitOrder_products (db : Db) (req : CreateOrderReq) (newId : ℤ)
    (row : OrderRow) (pi : Option (PromoCode × ℚ)) :
    (commitOrder db req newId row pi).2.products =
      (if req.paymentMethod == "balance" || optStrTruthy req.paymentProof then
        decrementProductsForItems db.products req.items
       else db.products) := by
  rcases pi with _ | ⟨pc, d⟩ <;>
    · unfold commitOrder
      dsimp only
      split <;> simp_all

/-- Success of the validation phase, decomposed. -/
theorem validateOrder_ok (db : Db) (req : CreateOrderReq) (now : ℤ)
    (t dv : ℚ) (pi : Option (PromoCode × ℚ))
    (h : validateOrder db req now = .ok (t, dv, pi)) :
    req.deliveryAmount = some dv ∧
    computeItemsTotal db req.items 0 = .ok t ∧
    (optStrTruthy req.promoCode = false → pi = none) ∧
    (optStrTruthy req.promoCode = true →
      ∃ pc, lookupPromoCreate db ((req.promoCode.getD "").toUpper) now = some pc ∧
        minOrderFails pc t = false ∧ pi = some (pc, promoDiscount pc t)) := by
  unfold validateOrder at h
  split at h
  · exact absurd h (by simp)
  · split at h
    · exact absurd h (by simp)
    · rename_i dv0 _
      split at h
      · exact absurd h (by simp)
      · rename_i t0 heq
        split at h
        · rename_i hpromo
          split at h
          · rename_i pc0 hlk
            split at h
            · exact absurd h (by simp)
            · rename_i hmin
              refine ⟨?_, ?_, ?_, ?_⟩ <;> cases h <;> simp_all
          · exact absurd h (by simp)
        · rename_i hpromo
          refine ⟨?_, ?_, ?_, ?_⟩ <;> cases h <;> simp_all

/-- The per-line validation reads only the `products` table; the
`promo_code_uses` table is irrelevant to it. -/
theorem computeItemsTotal_promoUses_irrel (db : Db) (uses : List PromoUse) :
    ∀ (items : List OrderItemReq) (acc : ℚ),
      computeItemsTotal { db with promoUses := uses } items acc =
        computeItemsTotal db items acc := by
  intro items
  induction items with
  | nil => intro acc; rfl
  | cons it rest ih =>
    intro acc
    simp only [computeItemsTotal]
    rw [show findProduct { db with promoUses := uses } it.id = findProduct db it.id
      from rfl]
    cases findProduct db it.id with
    | none => rfl
    | some p =>
      dsimp only
      split
      · rfl
      · exact ih _

/-- The whole creation-path validation — including the promo check — never
reads `promo_code_uses`: there is no per-user reuse check in `POST /api/orders`. -/
theorem validateOrder_promoUses_irrel (db : Db) (uses : List PromoUse)
    (req : CreateOrderReq) (now : ℤ) :
    validateOrder { db with promoUses := uses } req now = validateOrder db req now := by
  unfold validateOrder
  rw [computeItemsTotal_promoUses_irrel]
  rfl

/-- A successful items-total computation returns the accumulated
`Σ price * quantity`. -/
theorem computeItemsTotal_ok (db : Db) :
    ∀ (items : List OrderItemReq) (acc T : ℚ),
      computeItemsTotal db items acc = .ok T →
      T = acc + itemsTotalSpec db items := by
  intro items
  induction items with
  | nil =>
    intro acc T h
    simp only [computeItemsTotal] at h
    cases h
    simp [itemsTotalSpec]
  | cons it rest ih =>
    intro acc T h
    simp only [computeItemsTotal] at h
    split at h
    · exact absurd h (by simp)
    · rename_i p hp
      split at h
      · exact absurd h (by simp)
      · have := ih _ _ h
        simp only [itemsTotalSpec, List.map_cons, List.sum_cons, hp] at *
        rw [this]
        ring

/-- A successful items-total computation validated every line: the product
exists and stocks at least the requested quantity. -/
theorem computeItemsTotal_stock (db : Db) :
    ∀ (items : List OrderItemReq) (acc T : ℚ),
      computeItemsTotal db items acc = .ok T →
      ∀ it ∈ items, ∃ p, findProduct db it.id = some p ∧ it.quantity ≤ p.quantity := by
  intro items
  induction items with
  | nil => intro acc T _ it hit; cases hit
  | cons it0 rest ih =>
    intro acc T h it hit
    simp only [computeItemsTotal] at h
    split at h
    · exact absurd h (by simp)
    · rename_i p hp
      split at h
      · exact absurd h (by simp)
      · rename_i hlt
        rcases List.mem_cons.mp hit with heq | hmem
        · subst heq
          exact ⟨p, hp, le_of_not_lt (by simpa using hlt)⟩
        · exact ih _ _ h it hmem

/-- With nonnegative prices and quantities the item subtotal is nonnegative. -/
theorem itemsTotalSpec_nonneg (db : Db) (items : List OrderItemReq)
    (hp : ∀ p ∈ db.products, 0 ≤ p.price)
    (hq : ∀ it ∈ items, 0 ≤ it.quantity) :
    0 ≤ itemsTotalSpec db items := by
  induction items with
  | nil => simp [itemsTotalSpec]
  | cons it rest ih =>
    have hrest := ih (fun x hx => hq x (List.mem_cons_of_mem it hx))
    have hhead : (0 : ℚ) ≤
        (match findProduct db it.id with
         | some p => p.price
         | none => 0) * (it.quantity : ℚ) := by
      have hqq : (0 : ℚ) ≤ (it.quantity : ℚ) := by
        exact_mod_cast hq it (List.mem_cons_self it rest)
      split
      · rename_i p hpfind
        have hmem := List.mem_of_find?_eq_some hpfind
        exact mul_nonneg (hp p hmem) hqq
      · simp
    simp only [itemsTotalSpec, List.map_cons, List.sum_cons]
    have : 0 ≤ itemsTotalSpec db rest := hrest
    simp only [itemsTotalSpec] at this
    linarith

/-- `Math.round` of a nonnegative number is nonnegative. -/
theorem jsRound_nonneg (q : ℚ) (h : 0 ≤ q) : 0 ≤ jsRound q := by
  unfold jsRound
  rw [Int.le_floor]
  push_cast
  linarith

/-- The discount computed by both promo paths is clamped to `[0, itemsTotal]`
whenever the stored `discount_value` is nonnegative (the admin endpoints only
accept nonnegative values) and the subtotal is nonnegative. -/
theorem promoDiscount_bounds (pc : PromoCode) (t : ℚ)
    (hv : 0 ≤ pc.discount_value) (ht : 0 ≤ t) :
    0 ≤ promoDiscount pc t ∧ promoDiscount pc t ≤ t := by
  unfold promoDiscount
  refine ⟨le_min ?_ ht, min_le_right _ _⟩
  unfold rawPromoDiscount
  split
  · have : (0 : ℚ) ≤ t * (pc.discount_value / 100) := by positivity
    exact_mod_cast jsRound_nonneg _ this
  · exact hv

/-- **C1.** For every successfully created order, the persisted `total_amount`
equals `itemsTotal - discount + deliveryAmount`, where `itemsTotal` is
`Σ price * quantity` over the cart lines and the discount lies in
`[0, itemsTotal]` (and is `0` when no promo code is supplied).  The
nonnegativity hypotheses mirror the reachable store: the admin endpoints
validate prices and promo values with `z.number().min(0)`, and cart quantities
are nonnegative. -/
theorem c1_createOrder_total_equation
    (db : Db) (req : CreateOrderReq) (now newId : ℤ) (o : OrderRow) (db2 : Db)
    (hp : ∀ p ∈ db.products, 0 ≤ p.price)
    (hq : ∀ it ∈ req.items, 0 ≤ it.quantity)
    (hv : ∀ pc ∈ db.promos, 0 ≤ pc.discount_value)
    (hfresh : ∀ r ∈ db.orders, r.id ≠ newId)
    (h : createOrder db req now newId = .ok o db2) :
    ∃ d : ℚ,
      0 ≤ d ∧ d ≤ itemsTotalSpec db req.items ∧
      o.total_amount = itemsTotalSpec db req.items - d + (req.deliveryAmount.getD 0) ∧
      (optStrTruthy req.promoCode = false → d = 0) := by
  unfold createOrder at h
  cases hval : validateOrder db req now with
  | error m => rw [hval] at h; cases h
  | ok v =>
    obtain ⟨t, dv, pi⟩ := v
    rw [hval] at h
    dsimp only at h
    have ho : o = (commitOrder db req newId (buildOrderRow db req newId t dv pi) pi).1 := by
      cases h; rfl
    obtain ⟨hdv, hcompute, hnone, hsome⟩ := validateOrder_ok db req now t dv pi hval
    have ht : t = itemsTotalSpec db req.items := by
      have := computeItemsTotal_ok db req.items 0 t hcompute
      simpa using this
    have htnn : 0 ≤ t := ht ▸ itemsTotalSpec_nonneg db req.items hp hq
    have hrowid : (buildOrderRow db req newId t dv pi).id = newId := rfl
    have hfst := commitOrder_fst db req newId (buildOrderRow db req newId t dv pi) pi
      hrowid hfresh
    have hgetD : req.deliveryAmount.getD 0 = dv := by rw [hdv]; rfl
    cases hpc : optStrTruthy req.promoCode with
    | false =>
      have hpieq : pi = none := hnone hpc
      subst hpieq
      refine ⟨0, le_refl 0, ht ▸ htnn, ?_, fun _ => rfl⟩
      have htotal : o.total_amount = t - 0 + dv := by
        rw [ho, hfst]; split <;> rfl
      rw [htotal, ht, hgetD]
    | true =>
      obtain ⟨pc, hlk, hmin, hpieq⟩ := hsome hpc
      subst hpieq
      have hpcmem : pc ∈ db.promos := List.mem_of_find?_eq_some hlk
      obtain ⟨hd0, hdt⟩ := promoDiscount_bounds pc t (hv pc hpcmem) htnn
      refine ⟨promoDiscount pc t, hd0, ht ▸ hdt, ?_, ?_⟩
      · have htotal : o.total_amount = t - promoDiscount pc t + dv := by
          rw [ho, hfst]; split <;> rfl
        rw [htotal, ht, hgetD]
      · intro hfalse
        exact absurd hfalse (by simp [hpc])

/-- **C1 witness.** The theorem applied to the concrete store `dbC7` and the
cart `reqC7card` (2 × 500 items, delivery 300, no promo). -/
theorem c1_witness :
    ((∀ p ∈ dbC7.products, 0 ≤ p.price) ∧ (∀ it ∈ reqC7card.items, 0 ≤ it.quantity)) ∧
    (∃ d : ℚ,
      0 ≤ d ∧ d ≤ itemsTotalSpec dbC7 reqC7card.items ∧
      rowC1.total_amount = itemsTotalSpec dbC7 reqC7card.items - d +
        (reqC7card.deliveryAmount.getD 0) ∧
      (optStrTruthy reqC7card.promoCode = false → d = 0)) :=
  ⟨⟨by with_unfolding_all decide, by with_unfolding_all decide⟩,
   c1_createOrder_total_equation dbC7 reqC7card 0 1 rowC1 dbC1after
     (by with_unfolding_all decide) (by with_unfolding_all decide)
     (by with_unfolding_all decide) (by with_unfolding_all decide)
     (by with_unfolding_all decide)⟩

/-- **C3.** A failed `POST /api/orders` leaves the store untouched (every
early `return` precedes `BEGIN TRANSACTION`), and the listed failure classes —
empty cart, missing delivery amount, missing product, insufficient stock,
invalid/expired/exhausted promo — produce pairwise distinct user-facing
messages. -/
theorem c3_create_error_no_side_effects :
    (∀ (db : Db) (req : CreateOrderReq) (now newId : ℤ) (m : String) (db2 : Db),
        createOrder db req now newId = .err m db2 → db2 = db) ∧
    createOrder dbC7 reqC3empty 0 1 =
      .err "Корзина пуста или имеет неверный формат" dbC7 ∧
    createOrder dbC7 reqC3nodel 0 1 = .err "Не указана стоимость доставки" dbC7 ∧
    createOrder dbC7 reqC3badid 0 1 = .err "Товар с ID 2 не найден" dbC7 ∧
    createOrder dbC7 reqC3over 0 1 =
      .err "Недостаточное количество товара \"Фикус\" в наличии (доступно: 10)" dbC7 ∧
    createOrder dbC7 reqC3badpromo 0 1 = .err "Недействительный промокод" dbC7 ∧
    List.Pairwise (fun a b => a ≠ b)
      ["Корзина пуста или имеет неверный формат",
       "Не указана стоимость доставки",
       "Товар с ID 2 не найден",
       "Недостаточное количество товара \"Фикус\" в наличии (доступно: 10)",
       "Недействительный промокод"] := by
  refine ⟨?_, ?_⟩
  · intro db req now newId m db2 h
    unfold createOrder at h
    cases hval : validateOrder db req now with
    | error m2 => rw [hval] at h; cases h; rfl
    | ok v =>
      obtain ⟨t, dv, pi⟩ := v
      rw [hval] at h
      exact absurd h (by simp)
  · with_unfolding_all decide

/-- **C3 witness.** The no-side-effect component applied to the concrete
empty-cart failure on `dbC7`. -/
theorem c3_witness :
    dbC7 = dbC7 ∧
    createOrder dbC7 reqC3empty 0 1 =
      .err "Корзина пуста или имеет неверный формат" dbC7 :=
  ⟨c3_create_error_no_side_effects.1 dbC7 reqC3empty 0 1
     "Корзина пуста или имеет неверный формат" dbC7 (by with_unfolding_all decide),
   by with_unfolding_all decide⟩

/-- **C4.** In both promo paths the percentage discount is
`Math.round(subtotal * value / 100)` over the item subtotal only — the
creation path uses the computed `itemsTotal`, the apply-promo path uses
`total_amount - delivery_amount` — never the delivery amount, and a fixed
discount is clamped to the subtotal; items 1000 + delivery 200 + 10% promo
give discount 100 and total 1100, not 1080. -/
theorem c4_discounts_on_item_subtotal :
    (∀ (pc : PromoCode) (t : ℚ), pc.discount_type = .percentage →
      promoDiscount pc t = min ((jsRound (t * (pc.discount_value / 100)) : ℤ) : ℚ) t) ∧
    (∀ (pc : PromoCode) (t : ℚ), pc.discount_type = .fixed →
      promoDiscount pc t = min pc.discount_value t) ∧
    (∀ (db : Db) (req : CreateOrderReq) (now newId : ℤ) (o : OrderRow) (db2 : Db)
        (T : ℚ) (pc : PromoCode),
      createOrder db req now newId = .ok o db2 →
      computeItemsTotal db req.items 0 = .ok T →
      optStrTruthy req.promoCode = true →
      lookupPromoCreate db ((req.promoCode.getD "").toUpper) now = some pc →
      (∀ r ∈ db.orders, r.id ≠ newId) →
      o.promo_code_discount = some (promoDiscount pc T)) ∧
    (∀ (db : Db) (orderId : ℤ) (code : String) (userId now : ℤ)
        (o o2 : OrderRow) (db2 : Db) (pc : PromoCode),
      findOrder db orderId = some o →
      db.promos.find? (promoRowMatchesApply code now) = some pc →
      applyPromo db orderId code userId now = .ok o2 db2 →
      o2.promo_code_discount =
        some (promoDiscount pc (o.total_amount - o.delivery_amount))) ∧
    ((createOrder dbC4 reqC4 5 1).orderOf.map OrderRow.promo_code_discount =
        some (some 100) ∧
     (createOrder dbC4 reqC4 5 1).orderOf.map OrderRow.total_amount = some 1100) := by
  refine ⟨?_, ?_, ?_, ?_, ?_⟩
  · intro pc t h
    simp [promoDiscount, rawPromoDiscount, h]
  · intro pc t h
    simp [promoDiscount, rawPromoDiscount, h]
  · intro db req now newId o db2 T pc h hT hpc hlk hfresh
    unfold createOrder at h
    cases hval : validateOrder db req now with
    | error m => rw [hval] at h; cases h
    | ok v =>
      obtain ⟨t, dv, pi⟩ := v
      rw [hval] at h
      have ho : o = (commitOrder db req newId (buildOrderRow db req newId t dv pi) pi).1 := by
        cases h; rfl
      obtain ⟨hdv, hcompute, hnone, hsome⟩ := validateOrder_ok db req now t dv pi hval
      obtain ⟨pc2, hlk2, hmin2, hpieq⟩ := hsome hpc
      have hpc2 : pc2 = pc := by rw [hlk] at hlk2; cases hlk2; rfl
      subst hpc2
      subst hpieq
      have htT : t = T := by rw [hT] at hcompute; cases hcompute; rfl
      subst htT
      rw [ho, commitOrder_fst db req newId _ _ rfl hfresh]
      split <;> rfl
  · intro db orderId code userId now o o2 db2 pc ho hpc h
    unfold applyPromo at h
    rw [ho, hpc] at h
    dsimp only at h
    split at h
    · cases h
    · split at h
      · cases h
      · split at h
        · cases h
        · rw [findOrder] at h
          dsimp only at h
          rw [find?_updateWhere (fun r => r.id == orderId)
            (fun r => { r with
              promo_code := some pc.code
              promo_code_discount :=
                some (promoDiscount pc (o.total_amount - o.delivery_amount))
              total_amount :=
                r.total_amount - promoDiscount pc (o.total_amount - o.delivery_amount) })
            db.orders (fun x => rfl)] at h
          rw [show db.orders.find? (fun r => r.id == orderId) = some o from ho] at h
          dsimp only [Option.map] at h
          cases h
          rfl
  · constructor
    · with_unfolding_all decide
    · with_unfolding_all decide

/-- **C4 witness.** The creation conjunct applied to `dbC4`/`reqC4`
(items 1000, delivery 200, promo `TEN` at 10%): the persisted discount is
`promoDiscount promoC4 1000 = 100`. -/
theorem c4_witness :
    (createOrder dbC4 reqC4 5 1 = .ok rowC4 dbC4after ∧
     optStrTruthy reqC4.promoCode = true ∧
     promoDiscount promoC4 1000 = 100) ∧
    rowC4.promo_code_discount = some (promoDiscount promoC4 1000) :=
  ⟨⟨by with_unfolding_all decide, by with_unfolding_all decide,
    by with_unfolding_all decide⟩,
   c4_discounts_on_item_subtotal.2.2.1 dbC4 reqC4 5 1 rowC4 dbC4after 1000 promoC4
     (by with_unfolding_all decide) (by with_unfolding_all rfl)
     (by with_unfolding_all decide) (by with_unfolding_all rfl)
     (by with_unfolding_all decide)⟩

/-- **C5 (amended).** Order creation rejects a promo that is inactive, outside
its `[start_date, end_date]` window, or at its use cap; the apply-promo
endpoint rejects an inactive or `expires_at`-expired promo and one at its use
cap — but, unlike creation, it does not consult the `[start_date, end_date]`
window (see the counterexample theorem). -/
theorem c5_amended_promo_rejections :
    (∀ (db : Db) (req : CreateOrderReq) (now newId : ℤ) (t dv : ℚ),
      req.items.length ≠ 0 →
      req.deliveryAmount = some dv →
      computeItemsTotal db req.items 0 = .ok t →
      optStrTruthy req.promoCode = true →
      (∀ pc ∈ db.promos, pc.code = (req.promoCode.getD "").toUpper →
        pc.is_active = false ∨ now < pc.start_date ∨ pc.end_date < now ∨
        ∃ m, pc.max_uses = some m ∧ m ≤ pc.current_uses) →
      createOrder db req now newId = .err "Недействительный промокод" db) ∧
    (∀ (db : Db) (orderId : ℤ) (code : String) (userId now : ℤ) (o : OrderRow),
      findOrder db orderId = some o →
      (∀ pc ∈ db.promos, pc.code = code →
        pc.is_active = false ∨ ∃ texp, pc.expires_at = some texp ∧ texp ≤ now) →
      applyPromo db orderId code userId now = .err "Недействительный промокод") ∧
    (∀ (db : Db) (orderId : ℤ) (code : String) (userId now : ℤ)
        (o : OrderRow) (pc : PromoCode) (m : ℤ),
      findOrder db orderId = some o →
      db.promos.find? (promoRowMatchesApply code now) = some pc →
      (match pc.min_order_amount with
       | none => false
       | some mm => mm != 0 && decide (o.total_amount < mm)) = false →
      pc.max_uses = some m → m ≠ 0 → m ≤ pc.current_uses →
      applyPromo db orderId code userId now =
        .err "Достигнут лимит использований промокода") := by
  refine ⟨?_, ?_, ?_⟩
  · intro db req now newId t dv hne hdel hcomp hpc hbad
    have hnone : lookupPromoCreate db ((req.promoCode.getD "").toUpper) now = none := by
      rw [lookupPromoCreate, List.find?_eq_none]
      intro pc hmem hmatch
      simp only [promoRowMatchesCreate, Bool.and_eq_true, beq_iff_eq,
        decide_eq_true_eq] at hmatch
      obtain ⟨⟨⟨hcode, hact⟩, hwin1, hwin2⟩, hcap⟩ := hmatch
      rcases hbad pc hmem hcode with h1 | h1 | h1 | ⟨m, hm1, hm2⟩
      · rw [h1] at hact; cases hact
      · omega
      · omega
      · rw [hm1] at hcap
        simp only [decide_eq_true_eq] at hcap
        omega
    have hval : validateOrder db req now = .error "Недействительный промокод" := by
      unfold validateOrder
      rw [if_neg (by simpa using hne), hdel, hcomp, hpc]
      dsimp only
      rw [hnone]
      rfl
    unfold createOrder
    rw [hval]
  · intro db orderId code userId now o ho hbad
    have hnone : db.promos.find? (promoRowMatchesApply code now) = none := by
      rw [List.find?_eq_none]
      intro pc hmem hmatch
      simp only [promoRowMatchesApply, Bool.and_eq_true, beq_iff_eq,
        decide_eq_true_eq] at hmatch
      obtain ⟨⟨hcode, hexp⟩, hact⟩ := hmatch
      rcases hbad pc hmem hcode with h1 | ⟨texp, ht1, ht2⟩
      · rw [h1] at hact; cases hact
      · rw [ht1] at hexp
        simp only [decide_eq_true_eq] at hexp
        omega
    unfold applyPromo
    rw [ho, hnone]
  · intro db orderId code userId now o pc m ho hpc hminf hm hm0 hcap
    have hcond : (match pc.max_uses with
        | none => false
        | some mm => mm != 0 && decide (mm ≤ pc.current_uses)) = true := by
      rw [hm]
      simp [hm0, hcap]
    unfold applyPromo
    rw [ho, hpc]
    dsimp only
    rw [if_neg (by simp [hminf]), if_pos hcond]

/-- **C5 witness.** The use-cap conjunct applied to `dbC5cap`: promo `FULL`
has `current_uses = max_uses = 5`, and the apply-promo endpoint rejects it. -/
theorem c5_witness :
    (findOrder dbC5cap 1 = some ordC5 ∧ promoC5cap.max_uses = some 5) ∧
    applyPromo dbC5cap 1 "FULL" 7 50 =
      .err "Достигнут лимит использований промокода" :=
  ⟨⟨by with_unfolding_all decide, by with_unfolding_all decide⟩,
   c5_amended_promo_rejections.2.2 dbC5cap 1 "FULL" 7 50 ordC5 promoC5cap 5
     (by with_unfolding_all decide) (by with_unfolding_all rfl)
     (by with_unfolding_all decide) (by with_unfolding_all decide)
     (by with_unfolding_all decide) (by with_unfolding_all decide)⟩

/-- **C8.** The "already used by this user" check exists only in the
apply-promo endpoint: with a recorded `promo_code_uses` row for the user it
returns the 400 "already used" error, while order creation ignores
`promo_code_uses` entirely (its validation is invariant under that table) and
accepts the same code again; concretely, user 7 already used `WELCOME` once in
`dbC8`, apply-promo rejects it, and creation accepts it with the full
discount. -/
theorem c8_reuse_check_only_in_apply_promo :
    (∀ (db : Db) (orderId : ℤ) (code : String) (userId now : ℤ)
        (o : OrderRow) (pc : PromoCode) (u : PromoUse),
      findOrder db orderId = some o →
      db.promos.find? (promoRowMatchesApply code now) = some pc →
      (match pc.min_order_amount with
       | none => false
       | some mm => mm != 0 && decide (o.total_amount < mm)) = false →
      (match pc.max_uses with
       | none => false
       | some mm => mm != 0 && decide (mm ≤ pc.current_uses)) = false →
      db.promoUses.find? (fun u2 => u2.promo_code_id == pc.id && u2.user_id == userId) =
        some u →
      applyPromo db orderId code userId now =
        .err "Вы уже использовали этот промокод") ∧
    (∀ (db : Db) (req : CreateOrderReq) (now : ℤ) (uses : List PromoUse),
      validateOrder { db with promoUses := uses } req now = validateOrder db req now) ∧
    (∀ (db : Db) (req : CreateOrderReq) (now newId : ℤ) (t dv : ℚ)
        (pi : Option (PromoCode × ℚ)),
      validateOrder db req now = .ok (t, dv, pi) →
      ∃ o db2, createOrder db req now newId = .ok o db2) ∧
    applyPromo dbC8 2 "WELCOME" 7 5 = .err "Вы уже использовали этот промокод" ∧
    (createOrder dbC8 reqC8 5 3).isOk = true ∧
    (createOrder dbC8 reqC8 5 3).orderOf.map OrderRow.promo_code_discount =
      some (some 50) := by
  refine ⟨?_, ?_, ?_, ?_, ?_, ?_⟩
  · intro db orderId code userId now o pc u ho hpc hmin hcap huse
    unfold applyPromo
    rw [ho, hpc]
    dsimp only
    rw [if_neg (by simp [hmin]), if_neg (by simp [hcap]), if_pos (by simp [huse])]
  · intro db req now uses
    exact validateOrder_promoUses_irrel db uses req now
  · intro db req now newId t dv pi hval
    refine ⟨(commitOrder db req newId (buildOrderRow db req newId t dv pi) pi).1,
            (commitOrder db req newId (buildOrderRow db req newId t dv pi) pi).2, ?_⟩
    unfold createOrder
    rw [hval]
  · with_unfolding_all decide
  · with_unfolding_all decide
  · with_unfolding_all decide

/-- **C8 witness.** The reuse-rejection conjunct applied to `dbC8`: user 7
already holds a `promo_code_uses` row for promo 3 (`WELCOME`). -/
theorem c8_witness :
    (findOrder dbC8 2 = some ordC8 ∧
     dbC8.promoUses.find?
       (fun u2 => u2.promo_code_id == promoC8.id && u2.user_id == 7) =
       some { promo_code_id := 3, user_id := 7, order_id := 1, discount_amount := 50 }) ∧
    applyPromo dbC8 2 "WELCOME" 7 5 = .err "Вы уже использовали этот промокод" :=
  ⟨⟨by with_unfolding_all decide, by with_unfolding_all decide⟩,
   c8_reuse_check_only_in_apply_promo.1 dbC8 2 "WELCOME" 7 5 ordC8 promoC8
     { promo_code_id := 3, user_id := 7, order_id := 1, discount_amount := 50 }
     (by with_unfolding_all decide) (by with_unfolding_all rfl)
     (by with_unfolding_all rfl) (by with_unfolding_all rfl)
     (by with_unfolding_all rfl)⟩

/-- **C7.** Creating an order with items `[{id 1, qty 2, price 500}]`, no promo
and delivery 300 yields `total_amount = 1300`, `order_status = "pending"`, a
falsy `product_quantities_reduced` flag and untouched stock; the same order
with `payment_method = "balance"` yields a truthy flag immediately, status
`"processing"`, and product 1's stock reduced by 2 (10 → 8). -/
theorem c7_scenario_totals_and_flag :
    (createOrder dbC7 reqC7card 0 1).orderOf.map OrderRow.total_amount = some 1300 ∧
    (createOrder dbC7 reqC7card 0 1).orderOf.map OrderRow.order_status = some "pending" ∧
    (createOrder dbC7 reqC7card 0 1).orderOf.map
      (fun o => o.product_quantities_reduced.truthy) = some false ∧
    (findProduct (createOrder dbC7 reqC7card 0 1).dbOf 1).map Product.quantity = some 10 ∧
    (createOrder dbC7 reqC7balance 0 1).orderOf.map OrderRow.order_status = some "processing" ∧
    (createOrder dbC7 reqC7balance 0 1).orderOf.map
      (fun o => o.product_quantities_reduced.truthy) = some true ∧
    (findProduct (createOrder dbC7 reqC7balance 0 1).dbOf 1).map Product.quantity = some 8 := by
  with_unfolding_all decide

/-- **C9 (amended).** `updateProductQuantities` preserves nonnegative stock
(each written quantity is `Math.max(0, ...)`), treats unusable line items as
skips while still reporting success, and the creation-path decrement keeps
stock nonnegative under its stock-sufficiency check *provided the cart lines
reference pairwise distinct products* (see the counterexample theorem for
duplicate lines). -/
theorem c9_amended_stock_floor :
    (∀ (db : Db) (orderId : ℤ) (items : List LineItem),
      (∀ p ∈ db.products, 0 ≤ p.quantity) →
      ∀ p ∈ (updateProductQuantities db orderId items).2.products, 0 ≤ p.quantity) ∧
    (∀ (db : Db) (orderId : ℤ) (items : List LineItem) (o : OrderRow),
      findOrder db orderId = some o →
      o.product_quantities_reduced.strictEqTrue = false →
      orderId ≠ 0 → items.length ≠ 0 →
      (updateProductQuantities db orderId items).1 = true) ∧
    (∀ (db : Db) (req : CreateOrderReq) (now newId : ℤ) (o : OrderRow) (db2 : Db),
      createOrder db req now newId = .ok o db2 →
      List.Pairwise (fun a b => a.id ≠ b.id) req.items →
      List.Pairwise (fun a b => a.id ≠ b.id) db.products →
      (∀ p ∈ db.products, 0 ≤ p.quantity) →
      ∀ p ∈ db2.products, 0 ≤ p.quantity) := by
  refine ⟨?_, ?_, ?_⟩
  · intro db orderId items hnn
    unfold updateProductQuantities
    split
    · exact hnn
    · split
      · exact hnn
      · have hrun : ∀ p ∈ (runReduction db orderId items).2.products, 0 ≤ p.quantity := by
          unfold runReduction
          dsimp only
          have hfold : ∀ (its : List LineItem) (d : Db),
              (∀ p ∈ d.products, 0 ≤ p.quantity) →
              ∀ p ∈ (its.foldl applyItemReduction d).products, 0 ≤ p.quantity := by
            intro its
            induction its with
            | nil => intro d hd; exact hd
            | cons it rest ih =>
              intro d hd
              rw [List.foldl_cons]
              apply ih
              unfold applyItemReduction
              split
              · exact hd
              · split
                · exact hd
                · split
                  · exact hd
                  · split
                    · exact hd
                    · rename_i q hq p0 hp0
                      intro p hp
                      obtain ⟨y, hy, hye⟩ := List.mem_map.mp hp
                      by_cases hc : (y.id == it.id) = true
                      · rw [if_pos hc] at hye
                        rw [← hye]
                        exact le_max_left 0 _
                      · rw [if_neg hc] at hye
                        rw [← hye]
                        exact hd y hy
          exact hfold items db hnn
        split
        · rename_i o ho
          split
          · exact hnn
          · exact hrun
        · exact hrun
  · intro db orderId items o ho hflag hid hlen
    unfold updateProductQuantities
    rw [if_neg (by simpa using hid), if_neg (by simpa using hlen), ho]
    dsimp only
    rw [if_neg (by simp [hflag])]
    rfl
  · intro db req now newId o db2 h hpwitems hpwprods hnn
    unfold createOrder at h
    cases hval : validateOrder db req now with
    | error m => rw [hval] at h; cases h
    | ok v =>
      obtain ⟨t, dv, pi⟩ := v
      rw [hval] at h
      have hdb2 : db2 =
          (commitOrder db req newId (buildOrderRow db req newId t dv pi) pi).2 := by
        cases h; rfl
      obtain ⟨hdv, hcompute, _, _⟩ := validateOrder_ok db req now t dv pi hval
      rw [hdb2, commitOrder_products]
      split
      · -- immediate decrement path: distinct lines + per-line stock check
        have hstock : ∀ it ∈ req.items, ∀ p ∈ db.products, p.id = it.id →
            it.quantity ≤ p.quantity := by
          intro it hit p hp hpid
          obtain ⟨p0, hfind, hle⟩ :=
            computeItemsTotal_stock db req.items 0 t hcompute it hit
          have hp0mem : p0 ∈ db.products := List.mem_of_find?_eq_some hfind
          have hp0id : p0.id = it.id := by
            have := List.find?_some hfind
            simpa using this
          have hpp0 : p = p0 := by
            by_contra hne
            have hsymm : Symmetric (fun a b : Product => a.id ≠ b.id) :=
              fun a b hab => Ne.symm hab
            exact hpwprods.forall hsymm hp hp0mem hne (by rw [hpid, hp0id])
          rw [hpp0]
          exact hle
        have hdec : ∀ (its : List OrderItemReq) (ps : List Product),
            List.Pairwise (fun a b => a.id ≠ b.id) its →
            (∀ it ∈ its, ∀ p ∈ ps, p.id = it.id → it.quantity ≤ p.quantity) →
            (∀ p ∈ ps, 0 ≤ p.quantity) →
            ∀ p ∈ decrementProductsForItems ps its, 0 ≤ p.quantity := by
          intro its
          induction its with
          | nil => intro ps _ _ hnn2 p hp; exact hnn2 p hp
          | cons it rest ih =>
            intro ps hpw hst hnn2
            rw [show decrementProductsForItems ps (it :: rest) =
              decrementProductsForItems
                (updateWhere (fun p => p.id == it.id)
                  (fun p => { p with quantity := p.quantity - it.quantity }) ps)
                rest from rfl]
            have hpwrest := List.Pairwise.of_cons hpw
            have hhead : ∀ b ∈ rest, it.id ≠ b.id :=
              fun b hb => List.rel_of_pairwise_cons hpw hb
            apply ih _ hpwrest
            · intro it2 hit2 p' hp' hpid
              obtain ⟨p, hpmem, hpe⟩ := List.mem_map.mp hp'
              by_cases hc : (p.id == it.id) = true
              · rw [if_pos hc] at hpe
                exfalso
                have hp'id : p'.id = p.id := by rw [← hpe]
                have : it.id = it2.id := by
                  rw [← hpid, hp'id, (beq_iff_eq.mp hc)]
                exact hhead it2 hit2 this
              · rw [if_neg hc] at hpe
                rw [← hpe]
                exact hst it2 (List.mem_cons_of_mem it hit2) p hpmem (by rw [hpe]; exact hpid)
            · intro p' hp'
              obtain ⟨p, hpmem, hpe⟩ := List.mem_map.mp hp'
              by_cases hc : (p.id == it.id) = true
              · rw [if_pos hc] at hpe
                rw [← hpe]
                have := hst it (List.mem_cons_self it rest) p hpmem (beq_iff_eq.mp hc)
                dsimp only
                omega
              · rw [if_neg hc] at hpe
                rw [← hpe]
                exact hnn2 p hpmem
        exact hdec req.items db.products hpwitems hstock hnn
      · exact hnn

/-- **C2.** The idempotency guard is ineffective: order 1 of `dbC2` has its
`product_quantities_reduced` flag set (the stored SQLite integer `1`, truthy),
yet replaying a qualifying status transition (`"shipped" → "paid"`) decrements
product 1 again, from 3 to 1 — because the guard tests `=== true` against the
integer `1`.  This refutes "the call is treated as a successful no-op". -/
theorem c2_reduced_flag_guard_ineffective :
    (findOrder dbC2 1).map (fun o => o.product_quantities_reduced.truthy) = some true ∧
    ((setOrderStatus dbC2 1 "paid").dbOf.bind
      (fun d => (findProduct d 1).map Product.quantity)) = some 1 := by
  with_unfolding_all decide

/-- **C5 (counterexample).** Promo `OLD10` of `dbC5` is active, uncapped, has
no `expires_at`, but its `[start_date, end_date] = [0, 10]` window is over at
time 50.  Order creation rejects it with a 400 error, but
`POST /api/orders/:orderId/apply-promo` — claimed to reject it too — accepts
it and applies a 100 discount. -/
theorem c5_counterexample_apply_promo_ignores_window :
    createOrder dbC5 reqC5 50 2 = .err "Недействительный промокод" dbC5 ∧
    (applyPromo dbC5 1 "OLD10" 7 50).isOk = true ∧
    (applyPromo dbC5 1 "OLD10" 7 50).orderOf.map OrderRow.promo_code_discount =
      some (some 100) := by
  with_unfolding_all decide

/-- **C6.** Deleting order 1 of `dbC6` (flag set, promo `"sale10"` stored in
the case the customer typed it) restores the stock (3 → 5) and deletes the
`promo_code_uses` row, but the promo's `current_uses` stays at 1 instead of
dropping to 0: the `UPDATE promo_codes ... WHERE code = ?` uses the stored
`"sale10"`, which does not match the upper-cased column value `"SALE10"`. -/
theorem c6_delete_restores_but_promo_counter_unchanged :
    ((deleteOrder dbC6 1).dbOf.bind
      (fun d => (findProduct d 1).map Product.quantity)) = some 5 ∧
    ((deleteOrder dbC6 1).dbOf.map (fun d => d.promoUses.length)) = some 0 ∧
    ((deleteOrder dbC6 1).dbOf.bind
      (fun d => (d.promos.find? (fun c => c.code == "SALE10")).map
        PromoCode.current_uses)) = some 1 := by
  with_unfolding_all decide

/-- **C9 witness.** The `updateProductQuantities` floor conjunct applied to
`dbC2` (stock 3, order with a 2-unit line). -/
theorem c9_witness :
    (∀ p ∈ dbC2.products, 0 ≤ p.quantity) ∧
    (∀ p ∈ (updateProductQuantities dbC2 1 ordC2.items).2.products, 0 ≤ p.quantity) :=
  ⟨by with_unfolding_all decide,
   c9_amended_stock_floor.1 dbC2 1 ordC2.items (by with_unfolding_all decide)⟩

/-- **C10.** The apply-promo endpoint never checks whether the order already
carries a promo: on success it overwrites `promo_code` and
`promo_code_discount` and subtracts the new discount from the
already-discounted `total_amount`, so for an order satisfying the creation
equation with a nonzero first discount the equation
`total = itemsTotal - discount + delivery` fails for the new discount;
concretely, order 1 of `dbC10` (`1100 = 1000 - 100 + 200`, promo `FIRST`)
accepts `EXTRA` and ends at `1010 ≠ 1000 - 90 + 200`. -/
theorem c10_apply_promo_stacks_discounts :
    (∀ (db : Db) (orderId : ℤ) (code : String) (userId now : ℤ)
        (o o2 : OrderRow) (db2 : Db) (itemsT d1 : ℚ),
      findOrder db orderId = some o →
      o.promo_code_discount = some d1 →
      optStrTruthy o.promo_code = true →
      o.total_amount = itemsT - d1 + o.delivery_amount →
      d1 ≠ 0 →
      applyPromo db orderId code userId now = .ok o2 db2 →
      ∃ pc d2,
        db.promos.find? (promoRowMatchesApply code now) = some pc ∧
        o2.promo_code = some pc.code ∧
        o2.promo_code_discount = some d2 ∧
        o2.total_amount = o.total_amount - d2 ∧
        o2.delivery_amount = o.delivery_amount ∧
        o2.total_amount ≠ itemsT - d2 + o2.delivery_amount) ∧
    ((applyPromo dbC10 1 "EXTRA" 9 5).isOk = true ∧
     (applyPromo dbC10 1 "EXTRA" 9 5).orderOf.map OrderRow.promo_code =
       some (some "EXTRA") ∧
     (applyPromo dbC10 1 "EXTRA" 9 5).orderOf.map OrderRow.total_amount =
       some 1010) := by
  constructor
  · intro db orderId code userId now o o2 db2 itemsT d1 ho hd1 hpcode htot hd1ne h
    unfold applyPromo at h
    rw [ho] at h
    dsimp only at h
    cases hpc : db.promos.find? (promoRowMatchesApply code now) with
    | none => rw [hpc] at h; cases h
    | some pc =>
      rw [hpc] at h
      dsimp only at h
      split at h
      · cases h
      · split at h
        · cases h
        · split at h
          · cases h
          · rw [findOrder] at h
            dsimp only at h
            rw [find?_updateWhere (fun r => r.id == orderId)
              (fun r => { r with
                promo_code := some pc.code
                promo_code_discount :=
                  some (promoDiscount pc (o.total_amount - o.delivery_amount))
                total_amount :=
                  r.total_amount - promoDiscount pc (o.total_amount - o.delivery_amount) })
              db.orders (fun x => rfl)] at h
            rw [show db.orders.find? (fun r => r.id == orderId) = some o from ho] at h
            dsimp only [Option.map] at h
            cases h
            refine ⟨pc, promoDiscount pc (o.total_amount - o.delivery_amount),
              rfl, rfl, rfl, rfl, rfl, ?_⟩
            dsimp only
            rw [htot]
            intro heq
            apply hd1ne
            linarith
  · refine ⟨?_, ?_, ?_⟩ <;> with_unfolding_all decide

/-- **C10 witness.** The theorem applied to `dbC10`: order 1 already carries
promo `FIRST` with discount 100 over items worth 1000. -/
theorem c10_witness :
    (findOrder dbC10 1 = some ordC10 ∧
     applyPromo dbC10 1 "EXTRA" 9 5 = .ok rowC10out dbC10out) ∧
    (∃ pc d2,
      dbC10.promos.find? (promoRowMatchesApply "EXTRA" 5) = some pc ∧
      rowC10out.promo_code = some pc.code ∧
      rowC10out.promo_code_discount = some d2 ∧
      rowC10out.total_amount = ordC10.total_amount - d2 ∧
      rowC10out.delivery_amount = ordC10.delivery_amount ∧
      rowC10out.total_amount ≠ 1000 - d2 + rowC10out.delivery_amount) :=
  ⟨⟨by with_unfolding_all decide, by with_unfolding_all decide⟩,
   c10_apply_promo_stacks_discounts.1 dbC10 1 "EXTRA" 9 5 ordC10 rowC10out dbC10out
     1000 100
     (by with_unfolding_all decide) (by with_unfolding_all decide)
     (by with_unfolding_all decide) (by with_unfolding_all decide)
     (by with_unfolding_all decide) (by with_unfolding_all decide)⟩

/-- **C9 (counterexample).** A cart listing product 1 twice with quantity 3
each passes the order-creation stock check against stock 5 (each line is
checked against the unmodified stock), and the unclamped creation-path
decrement then drives the stock to `-1`. -/
theorem c9_counterexample_duplicate_lines_negative_stock :
    (createOrder dbC9 reqC9 0 1).isOk = true ∧
    (findProduct (createOrder dbC9 reqC9 0 1).dbOf 1).map Product.quantity =
      some (-1) := by
  with_unfolding_all decide

end Shop
